import Mathlib

/-!
Verification development for the two data-movement scripts of this repository:
`restore_categorical_features.py` (the function `process_sas_to_parquet`) and
`daily_loss_query.py` (the module-level CSV to SQLite import).

The embedding models dataframes as ordered column-name lists plus rows of
values, and models the behaviour of the library calls the scripts make
(pandas `read_sas` / `read_csv`, polars joins, `with_column`, `vstack`,
`write_parquet`, and the sqlite3 cursor) at the level needed by the claims.
Python exceptions are modelled as an error type threaded through `Except`.
-/

/-- A cell value of the tabular data: an integer surrogate code, a text value,
or null (the result of an unmatched left join). -/
inductive Value where
  | vInt : Int → Value
  | vStr : String → Value
  | vNull : Value
deriving DecidableEq

/-- A dataframe: ordered column names and rows; each row holds one value per
column, positionally. -/
structure DF where
  cols : List String
  rows : List (List Value)
deriving DecidableEq

/-- The accumulator initialised at line 63 of the source: `pl.DataFrame()`,
a dataframe with no columns and no rows. -/
def empty_df : DF := ⟨[], []⟩

/-- Position of the first column with the given name, as polars resolves
column names to positions. -/
def colIdx : List String → String → Option Nat
  | [], _ => none
  | c :: cs, x => if c = x then some 0 else (colIdx cs x).map (· + 1)

/-- Value of the named column in a row (null when the column is absent). -/
def rowGet (cols : List String) (r : List Value) (c : String) : Value :=
  match colIdx cols c with
  | none => Value.vNull
  | some i => r.getD i Value.vNull

/-- Remove every column equal to the right join key: polars drops the
`right_on` column of the right table from the joined output. -/
def dropKey (key : String) : List String → List String
  | [] => []
  | c :: cs => if c = key then dropKey key cs else c :: dropKey key cs

/-- polars appends the suffix `_right` to a right-table column whose name
collides with a column of the left table. -/
def renameRight (leftCols : List String) (c : String) : String :=
  if c ∈ leftCols then c ++ "_right" else c

/-- Python exception kinds raised by the modelled calls.  The string names
the raising call site so that distinct raise points stay distinguishable. -/
inductive PyError where
  | fileNotFound : String → PyError
  | valueError : String → PyError
  | typeError : String → PyError
  | attributeError : String → PyError
  | runtimeError : String → PyError
deriving DecidableEq

/-- The left join of lines 79 to 84 of the source:
`ldf.join(lookup_table, left_on=oc, right_on=key, how=left)`.
All left columns are kept (including the key, with its original values); the
right key column is dropped; remaining right columns are suffixed with
`_right` on a name collision.  Each left row produces one output row per
matching right row, in right-table order (duplicate lookup keys multiply
rows); a left row with no match gets nulls in the right columns; a null key
matches nothing. -/
def join_rows (df lk : DF) (left_on right_on : String) (rKeep : List String) :
    List (List Value) :=
  (df.rows.map (fun r =>
    let lv := rowGet df.cols r left_on
    let ms := lk.rows.filter
      (fun rr => decide (lv ≠ Value.vNull ∧ rowGet lk.cols rr right_on = lv))
    match ms with
    | [] => [r ++ rKeep.map (fun _ => Value.vNull)]
    | _ :: _ => ms.map (fun m => r ++ rKeep.map (fun c => rowGet lk.cols m c)))).flatten

/-- The column schema and guard of the same join: output columns are the left
columns followed by the kept right columns after the collision rename; a
missing join column is an error surfaced at collect. -/
def leftJoin (df lk : DF) (left_on right_on : String) : Except String DF :=
  if left_on ∈ df.cols ∧ right_on ∈ lk.cols then
    let rKeep := dropKey right_on lk.cols
    Except.ok ⟨df.cols ++ rKeep.map (renameRight df.cols),
               join_rows df lk left_on right_on rKeep⟩
  else Except.error "join: column not found"

/-- Lines 87 to 89 of the source:
`ldf.with_column(pl.col(oc).fillna(pl.col(oc + _right)).alias(oc)).drop(oc + _right)`.
`fillna` (fill-null) keeps the value of `oc` wherever it is non-null and only
falls back to the joined `oc_right` value where `oc` itself is null; the
result replaces column `oc` in place, and the intermediate `oc_right` column
is dropped.  A missing column is an error surfaced at collect. -/
def fillna_and_drop (df : DF) (oc : String) : Except String DF :=
  match colIdx df.cols oc, colIdx df.cols (oc ++ "_right") with
  | some i, some j =>
    Except.ok ⟨df.cols.eraseIdx j,
      df.rows.map (fun r =>
        (r.set i (if r.getD i Value.vNull = Value.vNull then r.getD j Value.vNull
                  else r.getD i Value.vNull)).eraseIdx j)⟩
  | _, _ => Except.error "fillna: column not found"

/-- One row of the metadata CSV: the encoded column of the main dataset and
the join-key column of its lookup table. -/
structure MetaRow where
  orig_col_name : String
  int_id_col_name : String
deriving DecidableEq

/-- The body of the metadata loop (lines 74 to 89): scan the lookup CSV named
after the column, left-join, substitute, drop the intermediate column. -/
def metadata_step (lookups : String → Option DF) (df : DF) (mr : MetaRow) :
    Except String DF :=
  match lookups mr.orig_col_name with
  | none => Except.error "scan_csv: lookup file not found"
  | some lk =>
    match leftJoin df lk mr.orig_col_name mr.int_id_col_name with
    | Except.error e => Except.error e
    | Except.ok joined => fillna_and_drop joined mr.orig_col_name

/-- The whole per-chunk transform: the metadata loop applied row by row, in
metadata order, to one chunk (what `ldf.collect()` at line 92 evaluates). -/
def transform_chunk (metadata : List MetaRow) (lookups : String → Option DF)
    (chunk : DF) : Except String DF :=
  match metadata with
  | [] => Except.ok chunk
  | mr :: rest =>
    match metadata_step lookups chunk mr with
    | Except.error e => Except.error e
    | Except.ok df2 => transform_chunk rest lookups df2

/-- polars `DataFrame.vstack`: appends the rows of another dataframe with an
identical column schema.  The source never reaches a well-typed call of it. -/
def vstack (df other : DF) : Except String DF :=
  if df.cols = other.cols then Except.ok ⟨df.cols, df.rows ++ other.rows⟩
  else Except.error "vstack: column schemas do not match"

/-- Line 93 of the source: `full_data.vstack([full_data, df_chunk])` passes a
Python list where polars `vstack` expects a dataframe; `vstack` reads the
`_df` slot of its argument, so a list argument always raises. -/
def vstack_list_arg (_ : DF) (_ : List DF) : Except String DF :=
  Except.error "list object has no attribute _df"

/-- The chunk loop of lines 66 to 93 applied to the chunks yielded by the
reader: convert the chunk (`pl.from_pandas` of a dataframe chunk is the
identity on the modelled content), run the metadata transform, collect, then
call `vstack` with the list argument. -/
def chunk_loop (metadata : List MetaRow) (lookups : String → Option DF) :
    List DF → DF → Except PyError DF
  | [], full_data => Except.ok full_data
  | chunk :: rest, full_data =>
    match transform_chunk metadata lookups chunk with
    | Except.error e => Except.error (PyError.runtimeError e)
    | Except.ok df_chunk =>
      match vstack_list_arg full_data [full_data, df_chunk] with
      | Except.error e => Except.error (PyError.attributeError e)
      | Except.ok fd => chunk_loop metadata lookups rest fd

/-- Exact model of the Python float threshold as a fraction; every concrete
threshold of the spec (0, 0.5, 1, 1.5, negatives) is such a fraction.
Meaningful values have a positive denominator. -/
structure PyFloat where
  num : Int
  den : Nat
deriving DecidableEq

/-- The rational number a `PyFloat` stands for. -/
def PyFloat.toRat (t : PyFloat) : ℚ := (t.num : ℚ) / (t.den : ℚ)

/-- Line 46 of the source, `0 < threshold <= 1`, decided by cross
multiplication against the positive denominator. -/
def threshold_ok (t : PyFloat) : Bool :=
  decide (0 < t.num ∧ t.num ≤ (t.den : Int))

/-- Line 55 of the source, `dataset_size > threshold * available_memory`,
decided by cross multiplication against the positive denominator. -/
def exceeds_threshold (size mem : Nat) (t : PyFloat) : Bool :=
  decide (t.num * (mem : Int) < (size : Int) * (t.den : Int))

/-- Lines 55 to 60 of the source: when the dataset size exceeds the memory
threshold, the chunk size is `int(available_memory / dataset_size)` (floor,
both operands nonnegative; the guard makes the size positive whenever the
threshold is valid, so the Nat division agrees with Python); otherwise the
chunk size is None. -/
def chunk_decision (size mem : Nat) (t : PyFloat) : Option Nat :=
  if exceeds_threshold size mem t then some (mem / size) else none

/-- Batches pulled by the pandas SAS reader, `chunksize` rows per batch (the
last batch possibly smaller, zero batches for zero rows), with fuel equal to
the row count bounding the recursion structurally.  The reader is only
entered with a positive chunk size (see `process_sas_to_parquet`); the inner
`max` merely keeps the definition total at zero. -/
def chunks_go (m : Nat) : Nat → List (List Value) → List (List (List Value))
  | _, [] => []
  | 0, _ :: _ => []
  | Nat.succ fuel, x :: xs =>
    (x :: xs).take (max m 1) :: chunks_go m fuel ((x :: xs).drop (max m 1))

/-- The list of row batches the chunked reader yields for the dataset. -/
def chunks_of (n : Nat) (l : List (List Value)) : List (List (List Value)) :=
  chunks_go n l.length l

/-- The run environment: existence of the two input files, the byte size
reported by `os.path.getsize`, the available memory reported by psutil, the
parsed metadata CSV, the logical content of the SAS dataset, and the lookup
CSV files on disk, keyed by the column name (`lookup_<name>.csv`). -/
structure Env where
  sas_exists : Bool
  metadata_exists : Bool
  dataset_size : Nat
  available_memory : Nat
  metadata : List MetaRow
  dataset : DF
  lookups : String → Option DF

/-- What the chunk loop does when `pd.read_sas` hands back the whole
dataframe rather than a reader: Python `for chunk in <DataFrame>` iterates
over the column labels (strings), so `pl.from_pandas` raises `TypeError` on
the first label; a dataset with no columns yields no iterations and leaves
the accumulator untouched. -/
def whole_dataframe_iteration (dataset : DF) : Except PyError DF :=
  match dataset.cols with
  | [] => Except.ok empty_df
  | _ :: _ =>
    Except.error (PyError.typeError "from_pandas expects a pandas DataFrame, got str")

/-- The function `process_sas_to_parquet` (lines 6 to 96), step by step in
source order: read the metadata CSV (raises `FileNotFoundError` when the file
is missing), query the dataset size (likewise), query available memory,
validate the threshold (raises `ValueError`), run the two explicit existence
checks, decide the chunk size, then iterate.  `pd.read_sas` returns a reader
only for a truthy chunk size (its gate is `iterator or chunksize`, so both
None and 0 fall through): with a positive chunk size the reader yields
dataframe chunks and each runs the transform followed by the `vstack`
list-argument call; with chunk size None or 0 the whole dataframe comes back
and the loop iterates its column labels.  The returned dataframe is the one
passed to `write_parquet` at line 96. -/
def process_sas_to_parquet (env : Env) (threshold : PyFloat) :
    Except PyError DF :=
  if env.metadata_exists = false then
    Except.error (PyError.fileNotFound "pd.read_csv") else
  if env.sas_exists = false then
    Except.error (PyError.fileNotFound "os.path.getsize") else
  if threshold_ok threshold = false then
    Except.error (PyError.valueError "Threshold must be a float between 0 and 1.") else
  if env.sas_exists = false then
    Except.error (PyError.fileNotFound "raise line 50: SAS dataset does not exist") else
  if env.metadata_exists = false then
    Except.error (PyError.fileNotFound "raise line 53: metadata CSV does not exist") else
  match chunk_decision env.dataset_size env.available_memory threshold with
  | none => whole_dataframe_iteration env.dataset
  | some 0 => whole_dataframe_iteration env.dataset
  | some (Nat.succ m) =>
    chunk_loop env.metadata env.lookups
      ((chunks_of (Nat.succ m) env.dataset.rows).map
        (fun rs => DF.mk env.dataset.cols rs))
      empty_df

/-- Contents handed to `write_parquet` at the output path, in call order: the
single final write when the run returns, nothing when it raises. -/
def written_parquet_files (env : Env) (threshold : PyFloat) : List DF :=
  match process_sas_to_parquet env threshold with
  | Except.ok df => [df]
  | Except.error _ => []

/-! Embedding of `daily_loss_query.py`: the fixed `daily_loss` schema, the
INSERT statement text built inside the row loop, and the loop itself, with
the sqlite3 cursor modelled at the level of statement acceptance. -/

/-- Whether the pattern occurs verbatim at the head of the text. -/
def matches_at : List Char → List Char → Bool
  | [], _ => true
  | _ :: _, [] => false
  | p :: ps, c :: cs => p == c && matches_at ps cs

/-- Whether the pattern occurs anywhere in the text. -/
def contains_marker (marker : List Char) : List Char → Bool
  | [] => matches_at marker []
  | c :: cs => matches_at marker (c :: cs) || contains_marker marker cs

/-- The text strictly before the first occurrence of the pattern (the whole
text when the pattern never occurs). -/
def before_marker (marker : List Char) : List Char → List Char
  | [] => []
  | c :: cs =>
    if matches_at marker (c :: cs) then [] else c :: before_marker marker cs

/-- Number of occurrences of one character in the text. -/
def count_char (c : Char) : List Char → Nat
  | [] => 0
  | d :: ds => (if d = c then 1 else 0) + count_char c ds

/-- The column list of the `CREATE TABLE IF NOT EXISTS daily_loss` statement
(lines 18 to 121 of `daily_loss_query.py`), in declaration order. -/
def daily_loss_columns : List String :=
  ["cy", "cm", "claim_numb", "subclaim_numb", "claimant_numb", "seq_numb",
   "risk_unit", "occur", "bldg_numb", "rpt_date", "rpt_loc_numb",
   "status_chg_date", "aia_1_2", "aia_3_4", "aia_5_6", "status_desc",
   "trans_order", "rsv_trans_type", "trans_amt", "trans_type", "trans_cat",
   "benefit_type_code", "pmt_reason_gp_code", "pmt_reason_code",
   "pay_type_code", "pay_cat_code", "pay_status_code", "loss_resv",
   "paid_loss", "lae_resv", "paid_dcce", "paid_aoe", "exp_recovery_resv",
   "paid_exp_recovery", "ded_recovery_resv", "paid_ded_recovery",
   "salvage_resv", "paid_salvage", "subro_resv", "paid_subro", "rr_resv",
   "reins_company", "reins_numb", "major_peril", "type_bureau",
   "subline_numb", "risk_st", "risk_zip", "risk_territory",
   "agency_full_numb", "agency_st", "accident_st", "cat_start", "cat_end",
   "cat_code", "cause_of_loss", "cat_date", "company_numb", "policy_sym",
   "policy_numb", "module", "policy_eff_date", "policy_type",
   "producer_code", "tier_rate_code", "class_code", "minor_class",
   "major_class", "cfc_class", "date_of_loss", "uobg", "mrl_detail", "asl",
   "bus_line", "bus_seg", "uw_line", "mrl", "mrl_sub_gp", "treaty_type",
   "trans_date", "source_system", "city", "county_fips", "county",
   "state_abbrev", "zip", "loc_unknown", "covered_by_treaty",
   "country_code", "longitude", "latitude", "cover_eff_date",
   "cover_exp_date", "exposure", "rs_tb_stat_key",
   "policy_stat_bureau_dim_key", "dly_prm_fact_key", "pmt_numb",
   "pmt_item_numb", "suit"]

/-- The columns the INSERT statement names before its text breaks off
(lines 128 to 144): the first sixteen of the table columns, followed by a
trailing comma and then directly the VALUES keyword. -/
def insert_query_columns : List String :=
  ["cy", "cm", "claim_numb", "subclaim_numb", "claimant_numb", "seq_numb",
   "risk_unit", "occur", "bldg_numb", "rpt_date", "rpt_loc_numb",
   "status_chg_date", "aia_1_2", "aia_3_4", "aia_5_6", "status_desc"]

/-- The statement text built at lines 127 to 146 of the source, token for
token with the interior whitespace normalised to single spaces: the column
list opened after `daily_loss` is never closed (no closing parenthesis before
VALUES), and the VALUES tuple ends in a literal ellipsis. -/
def insert_query : String :=
  "INSERT INTO daily_loss (cy, cm, claim_numb, subclaim_numb, claimant_numb, seq_numb, risk_unit, occur, bldg_numb, rpt_date, rpt_loc_numb, status_chg_date, aia_1_2, aia_3_4, aia_5_6, status_desc, VALUES (?, ?, ?, ?, ?, ...);"

/-- Whether the parenthesised column list preceding the VALUES keyword is
closed: the parenthesis counts before VALUES balance. -/
def column_list_closed (q : String) : Bool :=
  let b := before_marker ("VALUES".toList) q.toList
  count_char ')' b == count_char '(' b

/-- Whether the statement text contains a literal ellipsis token, which is
not SQL. -/
def has_ellipsis_token (q : String) : Bool :=
  contains_marker ("...".toList) q.toList

/-- Modelled from the SQLite INSERT grammar: `prepare` accepts the statement
only if the column list after the table name is closed and the VALUES tuple
is a list of expressions; an unclosed column list or a literal ellipsis token
is a syntax error. -/
def sqlite_accepts_insert (q : String) : Bool :=
  column_list_closed q && !has_ellipsis_token q

/-- `cursor.execute(insert_query, row)` for one CSV row: a statement rejected
by the grammar raises OperationalError; an accepted statement must bind
exactly one parameter per question mark or sqlite3 raises ProgrammingError;
otherwise the row is inserted. -/
def cursor_execute_insert (q : String) (row : List Value) : Except String Unit :=
  if sqlite_accepts_insert q = false then
    Except.error "sqlite3.OperationalError: syntax error"
  else if count_char '?' q.toList ≠ row.length then
    Except.error "sqlite3.ProgrammingError: wrong number of bindings"
  else Except.ok ()

/-- The row loop of lines 126 to 148: for each CSV row, execute the INSERT
and commit; the pair returned is the outcome and the number of row inserts
committed before the outcome. -/
def insert_loop : List (List Value) → Nat → Except String Unit × Nat
  | [], commits => (Except.ok (), commits)
  | r :: rs, commits =>
    match cursor_execute_insert insert_query r with
    | Except.error e => (Except.error e, commits)
    | Except.ok _ => insert_loop rs (commits + 1)

/-- The module-level script run on a CSV already read into a dataframe: the
CREATE TABLE IF NOT EXISTS statement succeeds and is committed, then every
row goes through the insert-and-commit loop. -/
def daily_loss_import (csv_rows : List (List Value)) : Except String Unit × Nat :=
  insert_loop csv_rows 0

/-! Concrete fixtures used by several claims: the `region_code` scenario of
the spec, and small run environments exercising each control path. -/

/-- Metadata with one encoded column, as in the region scenario of the spec. -/
def region_metadata : List MetaRow := [⟨"region_code", "region_id"⟩]

/-- The lookup table `lookup_region_code.csv`: key column `region_id`, value
column `region_code`, mapping 1 to East and 2 to West. -/
def region_lookup : DF :=
  ⟨["region_id", "region_code"],
   [[Value.vInt 1, Value.vStr "East"], [Value.vInt 2, Value.vStr "West"]]⟩

/-- The lookup files on disk for the region scenario. -/
def region_lookups : String → Option DF :=
  fun c => if c = "region_code" then some region_lookup else none

/-- The three-row dataset of the region scenario: `region_code = [1, 2, 99]`. -/
def region_chunk : DF :=
  ⟨["region_code"], [[Value.vInt 1], [Value.vInt 2], [Value.vInt 99]]⟩

/-- The threshold 0.5 (the default of the source). -/
def half : PyFloat := ⟨1, 2⟩

/-- Both inputs present, dataset of two rows, 4 bytes against 4 bytes of
available memory: chunking activates with chunk size 1, two chunks. -/
def env_two_chunks : Env :=
  ⟨true, true, 4, 4, region_metadata,
   ⟨["region_code"], [[Value.vInt 1], [Value.vInt 2]]⟩, region_lookups⟩

/-- Both inputs present, one-row dataset of 4 bytes against 100 bytes of
available memory: below the threshold, chunk size None. -/
def env_one_row_small : Env :=
  ⟨true, true, 4, 100, region_metadata,
   ⟨["region_code"], [[Value.vInt 1]]⟩, region_lookups⟩

/-- Both inputs present, dataset with zero rows and one column, below the
threshold. -/
def env_empty_small : Env :=
  ⟨true, true, 2, 100, region_metadata, ⟨["region_code"], []⟩, region_lookups⟩

/-- Both inputs present, dataset with zero rows and one column, above the
threshold but with a chunk budget of zero (a 100-byte file against 10 bytes
of available memory: int(10/100) = 0, which `pd.read_sas` treats as falsy). -/
def env_empty_large : Env :=
  ⟨true, true, 100, 10, region_metadata, ⟨["region_code"], []⟩, region_lookups⟩

/-- Both inputs present, dataset with zero rows and one column, above the
threshold with a positive chunk budget (a 4-byte file against 6 bytes of
available memory: chunk size int(6/4) = 1). -/
def env_empty_chunked : Env :=
  ⟨true, true, 4, 6, region_metadata, ⟨["region_code"], []⟩, region_lookups⟩

/-- The metadata CSV path does not resolve to an existing file. -/
def env_missing_metadata : Env :=
  ⟨true, false, 4, 4, [], ⟨[], []⟩, fun _ => none⟩

/-- The SAS dataset path does not resolve to an existing file. -/
def env_missing_sas : Env :=
  ⟨false, true, 4, 4, [], ⟨[], []⟩, fun _ => none⟩

/-! Helper lemmas. -/

/-- The cross-multiplied threshold check coincides with the real validation
`0 < threshold <= 1` read over the rationals. -/
theorem threshold_ok_iff (t : PyFloat) (h : 0 < t.den) :
    threshold_ok t = true ↔ (0 < t.toRat ∧ t.toRat ≤ 1) := by
  have hden : (0 : ℚ) < (t.den : ℚ) := by exact_mod_cast h
  unfold threshold_ok PyFloat.toRat
  rw [decide_eq_true_iff, lt_div_iff₀ hden, zero_mul, div_le_one hden]
  constructor
  · rintro ⟨h1, h2⟩
    exact ⟨by exact_mod_cast h1, by exact_mod_cast h2⟩
  · rintro ⟨h1, h2⟩
    exact ⟨by exact_mod_cast h1, by exact_mod_cast h2⟩

/-- The cross-multiplied size comparison coincides with
`dataset_size > threshold * available_memory` read over the rationals. -/
theorem exceeds_threshold_iff (size mem : Nat) (t : PyFloat) (h : 0 < t.den) :
    exceeds_threshold size mem t = true ↔ t.toRat * (mem : ℚ) < (size : ℚ) := by
  have hden : (0 : ℚ) < (t.den : ℚ) := by exact_mod_cast h
  unfold exceeds_threshold PyFloat.toRat
  rw [decide_eq_true_iff, div_mul_eq_mul_div, div_lt_iff₀ hden]
  constructor <;> intro h1 <;> exact_mod_cast h1

/-- Every error the chunk loop can produce comes from the transform collect
(a polars compute error) or from the vstack list-argument call (an attribute
error): the loop raises no file or configuration error of its own. -/
theorem chunk_loop_error_shape (md : List MetaRow) (lk : String → Option DF) :
    ∀ (cs : List DF) (acc : DF) (e : PyError),
      chunk_loop md lk cs acc = Except.error e →
      (∃ m, e = PyError.runtimeError m) ∨ (∃ m, e = PyError.attributeError m)
  | [], acc, e, h => by simp [chunk_loop] at h
  | c :: cs, acc, e, h => by
    unfold chunk_loop at h
    cases ht : transform_chunk md lk c with
    | error m =>
      rw [ht] at h
      refine Or.inl ⟨m, ?_⟩
      injection h with h2
      exact h2.symm
    | ok d =>
      rw [ht] at h
      simp only [vstack_list_arg] at h
      refine Or.inr ⟨"list object has no attribute _df", ?_⟩
      injection h with h2
      exact h2.symm

/-- colIdx looks in the left part of an appended list first. -/
theorem colIdx_append_of_mem : ∀ (l l2 : List String) (x : String), x ∈ l →
    colIdx (l ++ l2) x = colIdx l x
  | [], _, x, h => absurd h (List.not_mem_nil x)
  | c :: cs, l2, x, h => by
    by_cases hc : c = x
    · simp [colIdx, hc]
    · have hx : x ∈ cs := by
        rcases List.mem_cons.mp h with h1 | h2
        · exact absurd h1.symm hc
        · exact h2
      simp [colIdx, hc, colIdx_append_of_mem cs l2 x hx]

/-- A present column name resolves to a position. -/
theorem colIdx_isSome_of_mem : ∀ (l : List String) (x : String), x ∈ l →
    ∃ i, colIdx l x = some i
  | [], x, h => absurd h (List.not_mem_nil x)
  | c :: cs, x, h => by
    by_cases hc : c = x
    · exact ⟨0, by simp [colIdx, hc]⟩
    · have hx : x ∈ cs := by
        rcases List.mem_cons.mp h with h1 | h2
        · exact absurd h1.symm hc
        · exact h2
      obtain ⟨i, hi⟩ := colIdx_isSome_of_mem cs x hx
      exact ⟨i + 1, by simp [colIdx, hc, hi]⟩

/-- A fresh column appended at the end resolves to the last position. -/
theorem colIdx_append_self : ∀ (l : List String) (x : String), x ∉ l →
    colIdx (l ++ [x]) x = some l.length
  | [], x, _ => by simp [colIdx]
  | c :: cs, x, h => by
    have hc : ¬(c = x) := by
      intro hcx
      subst hcx
      exact h (List.mem_cons_self c cs)
    have hx : x ∉ cs := fun hmem => h (List.mem_cons_of_mem c hmem)
    simp [colIdx, hc, colIdx_append_self cs x hx]

/-- Erasing the appended last element restores the list. -/
theorem eraseIdx_append : ∀ (l : List String) (x : String),
    (l ++ [x]).eraseIdx l.length = l
  | [], _ => rfl
  | c :: cs, x => by
    simp only [List.cons_append, List.length_cons, List.eraseIdx_cons_succ]
    rw [eraseIdx_append cs x]

/-- The only error the whole-dataframe iteration can produce is the
from_pandas TypeError: never a file or configuration error. -/
theorem whole_dataframe_iteration_shape (d : DF) (e : PyError) :
    whole_dataframe_iteration d = Except.error e →
    e = PyError.typeError "from_pandas expects a pandas DataFrame, got str" := by
  unfold whole_dataframe_iteration
  cases d.cols with
  | nil => intro h; simp at h
  | cons a l => intro h; injection h with h2; exact h2.symm

/-- Joining against a two-column lookup table (key first, value named after
the encoded column) adds exactly one suffixed column to the schema. -/
theorem leftJoin_two_col (df : DF) (rws : List (List Value)) (oc key : String)
    (h1 : oc ∈ df.cols) (h3s : ¬(oc = key)) :
    leftJoin df ⟨[key, oc], rws⟩ oc key
      = Except.ok ⟨df.cols ++ [oc ++ "_right"],
          join_rows df ⟨[key, oc], rws⟩ oc key [oc]⟩ := by
  unfold leftJoin
  rw [if_pos ⟨h1, by simp⟩]
  simp [dropKey, h3s, renameRight, h1]

/-- One pass of the metadata loop over a well-formed lookup table succeeds
and leaves the column schema unchanged. -/
theorem metadata_step_cols (lookups : String → Option DF) (df : DF) (mr : MetaRow)
    (h1 : mr.orig_col_name ∈ df.cols)
    (h2 : (mr.orig_col_name ++ "_right") ∉ df.cols)
    (h3 : mr.int_id_col_name ≠ mr.orig_col_name)
    (h4 : ∃ rws, lookups mr.orig_col_name
            = some (DF.mk [mr.int_id_col_name, mr.orig_col_name] rws)) :
    ∃ out, metadata_step lookups df mr = Except.ok out ∧ out.cols = df.cols := by
  obtain ⟨rws, hlk⟩ := h4
  obtain ⟨i, hi⟩ := colIdx_isSome_of_mem df.cols mr.orig_col_name h1
  have h3s : ¬(mr.orig_col_name = mr.int_id_col_name) := fun hh => h3 hh.symm
  have hj := leftJoin_two_col df rws mr.orig_col_name mr.int_id_col_name h1 h3s
  simp only [metadata_step, hlk, hj]
  unfold fillna_and_drop
  rw [show (DF.mk (df.cols ++ [mr.orig_col_name ++ "_right"])
        (join_rows df ⟨[mr.int_id_col_name, mr.orig_col_name], rws⟩
          mr.orig_col_name mr.int_id_col_name [mr.orig_col_name])).cols
        = df.cols ++ [mr.orig_col_name ++ "_right"] from rfl,
      colIdx_append_of_mem _ _ _ h1, hi, colIdx_append_self _ _ h2]
  exact ⟨_, rfl, eraseIdx_append df.cols (mr.orig_col_name ++ "_right")⟩

/-- The metadata loop leaves the column schema unchanged when every metadata
row names a present column and a two-column lookup table. -/
theorem transform_chunk_cols (lookups : String → Option DF) :
    ∀ (md : List MetaRow) (df : DF),
      (∀ mr ∈ md, mr.orig_col_name ∈ df.cols ∧
          (mr.orig_col_name ++ "_right") ∉ df.cols ∧
          mr.int_id_col_name ≠ mr.orig_col_name ∧
          ∃ rws, lookups mr.orig_col_name
            = some (DF.mk [mr.int_id_col_name, mr.orig_col_name] rws)) →
      ∀ out, transform_chunk md lookups df = Except.ok out → out.cols = df.cols
  | [], df, _, out, h => by
    unfold transform_chunk at h
    injection h with h2
    rw [← h2]
  | mr :: md, df, hmd, out, h => by
    obtain ⟨h1, h2, h3, h4⟩ := hmd mr (List.mem_cons_self mr md)
    obtain ⟨mid, hstep, hcols⟩ := metadata_step_cols lookups df mr h1 h2 h3 h4
    unfold transform_chunk at h
    rw [hstep] at h
    have hmd2 : ∀ m ∈ md, m.orig_col_name ∈ mid.cols ∧
        (m.orig_col_name ++ "_right") ∉ mid.cols ∧
        m.int_id_col_name ≠ m.orig_col_name ∧
        ∃ rws, lookups m.orig_col_name
          = some (DF.mk [m.int_id_col_name, m.orig_col_name] rws) := by
      intro m hm
      rw [hcols]
      exact hmd m (List.mem_cons_of_mem mr hm)
    rw [← hcols]
    exact transform_chunk_cols lookups md mid hmd2 out h

/-- No branch past the explicit existence checks can raise a
FileNotFoundError: the only file-not-found errors of a run come from
`pd.read_csv` and `os.path.getsize`. -/
theorem process_no_explicit_raise (env : Env) (t : PyFloat) (s : String)
    (h1 : s ≠ "pd.read_csv") (h2 : s ≠ "os.path.getsize") :
    process_sas_to_parquet env t ≠ Except.error (PyError.fileNotFound s) := by
  unfold process_sas_to_parquet
  intro hcontra
  by_cases hm : env.metadata_exists = false
  · rw [if_pos hm] at hcontra
    simp only [Except.error.injEq, PyError.fileNotFound.injEq] at hcontra
    exact h1 hcontra.symm
  · rw [if_neg hm] at hcontra
    by_cases hs : env.sas_exists = false
    · rw [if_pos hs] at hcontra
      simp only [Except.error.injEq, PyError.fileNotFound.injEq] at hcontra
      exact h2 hcontra.symm
    · rw [if_neg hs] at hcontra
      by_cases hv : threshold_ok t = false
      · rw [if_pos hv] at hcontra
        simp at hcontra
      · rw [if_neg hv, if_neg hs, if_neg hm] at hcontra
        cases hcd : chunk_decision env.dataset_size env.available_memory t with
        | none =>
          rw [hcd] at hcontra
          have hshape := whole_dataframe_iteration_shape env.dataset _ hcontra
          simp at hshape
        | some n =>
          rw [hcd] at hcontra
          cases n with
          | zero =>
            have hshape := whole_dataframe_iteration_shape env.dataset _ hcontra
            simp at hshape
          | succ k =>
            rcases chunk_loop_error_shape _ _ _ _ _ hcontra with ⟨m, hm2⟩ | ⟨m, hm2⟩ <;>
              simp at hm2

/-! Claim theorems. -/

/-- C1: the claim says the per-column transform yields
coalesce(lookup_value, original_value), so a `region_code` column [1, 2, 99]
under the lookup mapping 1 to East and 2 to West becomes [East, West, 99].
The source passes the arguments to fillna the other way round
(`pl.col(oc).fillna(pl.col(oc_right))`), which keeps the non-null original
surrogate wherever it is non-null: evaluating the transform of the source at
exactly that input returns the surrogates [1, 2, 99] unchanged, never the
lookup values, contradicting the function docstring, which promises mapped
values from the lookup tables. -/
theorem C1_fillna_direction_bug :
    transform_chunk region_metadata region_lookups region_chunk
        = Except.ok ⟨["region_code"],
            [[Value.vInt 1], [Value.vInt 2], [Value.vInt 99]]⟩ ∧
      DF.mk ["region_code"] [[Value.vInt 1], [Value.vInt 2], [Value.vInt 99]]
        ≠ DF.mk ["region_code"]
            [[Value.vStr "East"], [Value.vStr "West"], [Value.vInt 99]] :=
  ⟨rfl, by decide⟩

/-- C2: the claim says the rows written to output equal the in-order
concatenation of the transformed chunks.  On a run with two one-row chunks
(both inputs present, valid threshold, well-formed lookup), the first loop
iteration transforms its chunk and then calls
`full_data.vstack([full_data, df_chunk])`, passing a Python list where polars
vstack expects a dataframe; the call raises AttributeError, the run aborts,
and nothing at all is written to the output path. -/
theorem C2_chunk_append_aborts :
    process_sas_to_parquet env_two_chunks half
        = Except.error (PyError.attributeError "list object has no attribute _df") ∧
      written_parquet_files env_two_chunks half = [] :=
  ⟨rfl, rfl⟩

/-- C3: the chunk-size decision itself is as claimed: chunking activates
exactly when the dataset byte size exceeds threshold times available memory,
and the activated chunk size is the integer part of
available_memory / dataset_size.  But the claimed else-branch behaviour,
processing the whole dataset as a single chunk, does not happen: with
chunksize None, `pd.read_sas` returns a plain dataframe, the `for` loop
iterates over its column labels, and `pl.from_pandas` raises TypeError on
the first label, as the evaluation on a below-threshold one-row dataset
shows. -/
theorem C3_chunk_decision_and_single_chunk_path :
    (∀ (size mem : Nat) (t : PyFloat), 0 < t.den →
        chunk_decision size mem t
          = if t.toRat * (mem : ℚ) < (size : ℚ) then some (mem / size) else none) ∧
      process_sas_to_parquet env_one_row_small half
        = Except.error
            (PyError.typeError "from_pandas expects a pandas DataFrame, got str") := by
  constructor
  · intro size mem t hden
    unfold chunk_decision
    by_cases hb : exceeds_threshold size mem t = true
    · rw [if_pos hb, if_pos ((exceeds_threshold_iff size mem t hden).mp hb)]
    · rw [if_neg hb,
          if_neg (fun hq => hb ((exceeds_threshold_iff size mem t hden).mpr hq))]
  · rfl

/-- C3 witness: instantiating the decision formula at a 4-byte dataset,
6 bytes of available memory and threshold one half. -/
theorem C3_chunk_decision_witness :
    chunk_decision 4 6 ⟨1, 2⟩
      = if PyFloat.toRat ⟨1, 2⟩ * (6 : ℚ) < (4 : ℚ) then some (6 / 4) else none :=
  C3_chunk_decision_and_single_chunk_path.1 4 6 ⟨1, 2⟩ (by decide)

/-- C4 (amended): each transformed chunk is accumulated in the in-memory
`full_data` dataframe, not appended to the output file; `write_parquet` runs
exactly once, after the loop, so every run writes at most one file and a run
that raises mid-way leaves nothing at the output path. -/
theorem C4_single_final_write (env : Env) (t : PyFloat) :
    (written_parquet_files env t).length ≤ 1 ∧
      ∀ e, process_sas_to_parquet env t = Except.error e →
        written_parquet_files env t = [] := by
  constructor
  · unfold written_parquet_files
    cases process_sas_to_parquet env t <;> simp
  · intro e he
    unfold written_parquet_files
    rw [he]

/-- C4 witness: the two-chunk run raises, and nothing is written. -/
theorem C4_single_final_write_witness :
    written_parquet_files env_two_chunks half = [] :=
  (C4_single_final_write env_two_chunks half).2
    (PyError.attributeError "list object has no attribute _df") rfl

/-- C4 counterexample to the claim as stated: a mid-run failure leaves no
output at the output path, not partial output, because no chunk is ever
appended to the output file during the loop — the two-chunk run fails after
fully transforming its first chunk and the list of write calls is empty. -/
theorem C4_no_partial_output_counterexample :
    process_sas_to_parquet env_two_chunks half
        = Except.error (PyError.attributeError "list object has no attribute _df") ∧
      written_parquet_files env_two_chunks half = [] :=
  ⟨rfl, rfl⟩

/-- C5 (amended): the per-chunk transform preserves the column schema —
provided every metadata row names a column of the chunk, no chunk column
already carries the `_right` suffix name, and every lookup table has exactly
the two columns key and value (value named after the encoded column). -/
theorem C5_columns_preserved (md : List MetaRow) (lookups : String → Option DF)
    (chunk out : DF)
    (hmd : ∀ mr ∈ md, mr.orig_col_name ∈ chunk.cols ∧
        (mr.orig_col_name ++ "_right") ∉ chunk.cols ∧
        mr.int_id_col_name ≠ mr.orig_col_name ∧
        ∃ rws, lookups mr.orig_col_name
          = some (DF.mk [mr.int_id_col_name, mr.orig_col_name] rws))
    (h : transform_chunk md lookups chunk = Except.ok out) :
    out.cols = chunk.cols :=
  transform_chunk_cols lookups md chunk hmd out h

/-- C5 witness: the region scenario satisfies the lookup-shape hypotheses and
the transformed output keeps the single column `region_code`. -/
theorem C5_columns_preserved_witness :
    (DF.mk ["region_code"] [[Value.vInt 1], [Value.vInt 2], [Value.vInt 99]]).cols
      = region_chunk.cols :=
  C5_columns_preserved region_metadata region_lookups region_chunk
    (DF.mk ["region_code"] [[Value.vInt 1], [Value.vInt 2], [Value.vInt 99]])
    (by
      intro mr hmr
      simp only [region_metadata, List.mem_singleton] at hmr
      subst hmr
      exact ⟨by decide, by decide, by decide,
        [[Value.vInt 1, Value.vStr "East"], [Value.vInt 2, Value.vStr "West"]], rfl⟩)
    rfl

/-- C5 counterexample to the claim as stated: the spec allows lookup tables
with more than the key and value columns, and any extra lookup column joins
in under its own name and is never dropped, so the output column set gains a
column the input dataset does not have. -/
theorem C5_extra_lookup_column_counterexample :
    (transform_chunk [⟨"region_code", "region_id"⟩]
        (fun c => if c = "region_code"
          then some ⟨["region_id", "region_code", "extra"],
                     [[Value.vInt 1, Value.vStr "East", Value.vStr "X"]]⟩
          else none)
        ⟨["region_code"], [[Value.vInt 1]]⟩).map DF.cols
      = Except.ok ["region_code", "extra"] ∧
      (["region_code", "extra"] : List String) ≠ ["region_code"] :=
  ⟨rfl, by decide⟩

/-- C6: the claim says an empty dataset yields a normal return with zero
rows and the input schema.  Neither happens.  Below the threshold the chunk
size is None, and above it with less available memory than dataset bytes the
computed chunk size `int(available_memory / dataset_size)` is 0; in both
cases the `pd.read_sas` reader gate `iterator or chunksize` is falsy, the
whole dataframe comes back, the `for` loop iterates its column labels, and
`pl.from_pandas` raises TypeError on the first label.  And with a positive
chunk budget (here int(6/4) = 1) the reader yields zero chunks for zero
rows, so the accumulator is still the zero-column `pl.DataFrame()` when it
is written: that run returns, but the written schema is empty, not the input
schema `[region_code]`. -/
theorem C6_empty_dataset_fails :
    process_sas_to_parquet env_empty_small half
        = Except.error
            (PyError.typeError "from_pandas expects a pandas DataFrame, got str") ∧
      process_sas_to_parquet env_empty_large half
        = Except.error
            (PyError.typeError "from_pandas expects a pandas DataFrame, got str") ∧
      process_sas_to_parquet env_empty_chunked half = Except.ok empty_df ∧
      empty_df.cols = [] ∧
      env_empty_chunked.dataset.cols = ["region_code"] :=
  ⟨rfl, rfl, rfl, rfl, rfl⟩

/-- C7: with both input files present (so that the file reads at lines 38
and 41 do not pre-empt the check) and a threshold with positive denominator,
the run raises the configuration ValueError exactly when the threshold lies
outside (0, 1]; in particular 0, 1.5 and negative values raise, and exactly
1 passes the validation. -/
theorem C7_threshold_validation (env : Env) (t : PyFloat)
    (hs : env.sas_exists = true) (hm : env.metadata_exists = true)
    (hden : 0 < t.den) :
    process_sas_to_parquet env t
        = Except.error (PyError.valueError "Threshold must be a float between 0 and 1.")
      ↔ ¬(0 < t.toRat ∧ t.toRat ≤ 1) := by
  unfold process_sas_to_parquet
  by_cases hv : threshold_ok t = true
  · have hThr : ¬(threshold_ok t = false) := by simp [hv]
    rw [if_neg (by simp [hm]), if_neg (by simp [hs]), if_neg hThr,
        if_neg (by simp [hs]), if_neg (by simp [hm])]
    have hval : 0 < t.toRat ∧ t.toRat ≤ 1 := (threshold_ok_iff t hden).mp hv
    constructor
    · intro hL
      exfalso
      cases hcd : chunk_decision env.dataset_size env.available_memory t with
      | none =>
        rw [hcd] at hL
        have hshape := whole_dataframe_iteration_shape env.dataset _ hL
        simp at hshape
      | some n =>
        rw [hcd] at hL
        cases n with
        | zero =>
          have hshape := whole_dataframe_iteration_shape env.dataset _ hL
          simp at hshape
        | succ k =>
          rcases chunk_loop_error_shape _ _ _ _ _ hL with ⟨m, hm2⟩ | ⟨m, hm2⟩ <;>
            simp at hm2
    · intro hR
      exact absurd hval hR
  · have hvf : threshold_ok t = false := by
      cases hbool : threshold_ok t
      · rfl
      · exact absurd hbool hv
    rw [if_neg (by simp [hm]), if_neg (by simp [hs]), if_pos hvf]
    constructor
    · intro _ hval
      exact hv ((threshold_ok_iff t hden).mpr hval)
    · intro _
      rfl

/-- C7 witness: threshold 1.5 raises the configuration ValueError, and
indeed 1.5 lies outside (0, 1]. -/
theorem C7_threshold_validation_witness :
    ¬(0 < PyFloat.toRat ⟨3, 2⟩ ∧ PyFloat.toRat ⟨3, 2⟩ ≤ 1) :=
  (C7_threshold_validation env_two_chunks ⟨3, 2⟩ rfl rfl (by decide)).mp rfl

/-- C8: the missing-input half of the claim holds — a missing metadata file
raises FileNotFoundError from `pd.read_csv`, a missing dataset raises it
from `os.path.getsize`, and in both cases nothing is written.  The
returns-normally half fails: with every input present, a valid threshold and
a well-formed lookup table, the run still raises (here AttributeError at the
first vstack call) instead of returning after writing output. -/
theorem C8_missing_inputs_and_no_normal_return :
    process_sas_to_parquet env_missing_metadata half
        = Except.error (PyError.fileNotFound "pd.read_csv") ∧
      written_parquet_files env_missing_metadata half = [] ∧
      process_sas_to_parquet env_missing_sas half
        = Except.error (PyError.fileNotFound "os.path.getsize") ∧
      written_parquet_files env_missing_sas half = [] ∧
      process_sas_to_parquet env_two_chunks half
        = Except.error (PyError.attributeError "list object has no attribute _df") :=
  ⟨rfl, rfl, rfl, rfl, rfl⟩

set_option maxRecDepth 20000 in
/-- C9: the claim says each CSV row is inserted into `daily_loss` by one
individually committed INSERT.  The INSERT text the loop executes is not
SQL: its column list (sixteen names of the hundred-column table) is never
closed before the VALUES keyword and its VALUES tuple ends in a literal
ellipsis with only five parameter marks, so sqlite3 rejects the statement on
the very first row, zero rows are inserted and zero row commits happen. -/
theorem C9_insert_statement_rejected :
    column_list_closed insert_query = false ∧
      has_ellipsis_token insert_query = true ∧
      count_char '?' insert_query.toList = 5 ∧
      daily_loss_columns.length = 100 ∧
      insert_query_columns.length = 16 ∧
      daily_loss_import [[Value.vInt 1]]
        = (Except.error "sqlite3.OperationalError: syntax error", 0) :=
  ⟨rfl, rfl, rfl, by decide, by decide, rfl⟩

/-- C10: the metadata read at line 38 and the size query at line 41 run
before any validation, so a missing metadata file surfaces as the
FileNotFoundError of `pd.read_csv` and a missing dataset as that of
`os.path.getsize`, whatever the threshold; and no run can ever produce the
errors of the explicit existence checks at lines 49 to 53 — those branches
are unreachable. -/
theorem C10_read_happens_before_validation (env : Env) (t : PyFloat) :
    (env.metadata_exists = false →
        process_sas_to_parquet env t
          = Except.error (PyError.fileNotFound "pd.read_csv")) ∧
      (env.metadata_exists = true → env.sas_exists = false →
        process_sas_to_parquet env t
          = Except.error (PyError.fileNotFound "os.path.getsize")) ∧
      process_sas_to_parquet env t
        ≠ Except.error (PyError.fileNotFound "raise line 50: SAS dataset does not exist") ∧
      process_sas_to_parquet env t
        ≠ Except.error (PyError.fileNotFound "raise line 53: metadata CSV does not exist") := by
  refine ⟨?_, ?_, ?_, ?_⟩
  · intro hm
    unfold process_sas_to_parquet
    rw [if_pos hm]
  · intro hm hs
    unfold process_sas_to_parquet
    rw [if_neg (by simp [hm]), if_pos hs]
  · exact process_no_explicit_raise env t _ (by decide) (by decide)
  · exact process_no_explicit_raise env t _ (by decide) (by decide)

/-- C10 witness: with the metadata file missing and an invalid threshold of
1.5, the FileNotFoundError of `pd.read_csv` still wins. -/
theorem C10_read_happens_before_validation_witness :
    process_sas_to_parquet env_missing_metadata ⟨3, 2⟩
      = Except.error (PyError.fileNotFound "pd.read_csv") :=
  (C10_read_happens_before_validation env_missing_metadata ⟨3, 2⟩).1 rfl
